import Mathlib

/-!
Verification of the resilient paginated table-scraping pipeline of
Yahoo_Finance_Stocks_Scraper.py (class YahooMostActiveScraper and its
parsing helpers), as a shallow embedding in Lean 4.

Modelling conventions:
  * Python numbers parsed from display text are modelled as rationals;
    every value exercised here is exactly representable.
  * Fallible Python calls (float on a bad string, a stale element handle)
    are modelled with Option / Except; a try/except block becomes a match
    on the Except value.
  * The Selenium driver is opaque: a page is the data the scraper reads
    from it (header texts, row cells, the state of the Next button).
-/

/-- Model of the membership test "pat in text" on strings, as character
lists: does pat occur as a contiguous substring starting at the head? -/
def matchesAt : List Char → List Char → Bool
  | [], _ => true
  | _ :: _, [] => false
  | p :: ps, c :: cs => p == c && matchesAt ps cs

/-- Model of the Python substring test "pat in text". -/
def containsSub (pat : List Char) : List Char → Bool
  | [] => pat.isEmpty
  | c :: cs => matchesAt pat (c :: cs) || containsSub pat cs

/-- Drop whitespace from both ends of a character list. -/
def trimList (cs : List Char) : List Char :=
  ((cs.dropWhile Char.isWhitespace).reverse.dropWhile Char.isWhitespace).reverse

/-- Model of Python str.strip() with no arguments. -/
def pyStrip (s : String) : String := String.mk (trimList s.toList)

/-- Model of Python s.replace(c, "") for a one-character needle: removes
every occurrence of the character. -/
def removeAll (c : Char) (s : String) : String :=
  String.mk (s.toList.filter (fun a => a != c))

/-- Model of Python s.endswith(c) for a one-character suffix. -/
def strEndsWith (s : String) (c : Char) : Bool :=
  decide (s.toList.getLast? = some c)

/-- Model of Python s[:-1]: the string without its last character. -/
def pyDropLast (s : String) : String := String.mk s.toList.dropLast

/-- Numeric value of a list of decimal digit characters. -/
def decDigitsVal (cs : List Char) : Nat :=
  cs.foldl (fun a c => a * 10 + (c.toNat - 48)) 0

/-- Rational multiplication written through mkRat (the library
multiplication is sealed against unfolding; qmul_eq_mul below proves
this is the same operation). -/
def qmul (a b : ℚ) : ℚ := mkRat (a.num * b.num) (a.den * b.den)

/-- Rational negation written through mkRat; qneg_eq_neg below proves
this is the same operation. -/
def qneg (a : ℚ) : ℚ := mkRat (-a.num) a.den

/-- v times 10 to the e, written through mkRat. -/
def qscalePow10 (v : ℚ) (e : Nat) : ℚ := mkRat (v.num * Int.ofNat (10 ^ e)) v.den

/-- v divided by 10 to the e, written through mkRat. -/
def qshrinkPow10 (v : ℚ) (e : Nat) : ℚ := mkRat v.num (v.den * 10 ^ e)

/-- Exponent part of a float literal: optional sign then digits. -/
def pyFloatExp (mant : ℚ) (cs : List Char) : Option ℚ :=
  let sd : Bool × List Char :=
    match cs with
    | '+' :: rest => (false, rest)
    | '-' :: rest => (true, rest)
    | _ => (false, cs)
  if sd.2.isEmpty || !(sd.2.all Char.isDigit) then none
  else if sd.1 then some (qshrinkPow10 mant (decDigitsVal sd.2))
  else some (qscalePow10 mant (decDigitsVal sd.2))

/-- Unsigned decimal literal: digits, optional fraction, optional
exponent; at least one digit overall, nothing trailing.  The mantissa
digits over 10 to the number of fraction digits. -/
def pyFloatUnsigned (cs : List Char) : Option ℚ :=
  let ip := cs.takeWhile Char.isDigit
  let r1 := cs.dropWhile Char.isDigit
  let fr : List Char × List Char :=
    match r1 with
    | '.' :: rest => (rest.takeWhile Char.isDigit, rest.dropWhile Char.isDigit)
    | _ => ([], r1)
  if ip.isEmpty && fr.1.isEmpty then none
  else
    let mant : ℚ := mkRat (Int.ofNat (decDigitsVal (ip ++ fr.1))) (10 ^ fr.1.length)
    match fr.2 with
    | [] => some mant
    | 'e' :: rest => pyFloatExp mant rest
    | 'E' :: rest => pyFloatExp mant rest
    | _ => none

/-- Model of Python float(str) on the decimal fragment the scraper
exercises: surrounding whitespace is stripped, an optional sign is
followed by a decimal literal with optional fraction and exponent.
(The inf/nan spellings and digit-group underscores that Python also
accepts never reach float here and are outside the model.)
A parse failure, which in Python raises ValueError, is none. -/
def pyFloat (s : String) : Option ℚ :=
  match (pyStrip s).toList with
  | [] => none
  | '+' :: rest => pyFloatUnsigned rest
  | '-' :: rest => (pyFloatUnsigned rest).map qneg
  | cs => pyFloatUnsigned cs

/-- float(str) with its ValueError explicit, for the try/except
translations below. -/
def pyFloatE (s : String) : Except Unit ℚ :=
  match pyFloat s with
  | some v => Except.ok v
  | none => Except.error ()

/-- The sentinel display tokens the scraper treats as "no value":
the test s in a set-brace of hyphen, em-dash, N/A, empty. -/
def isSentinelTok (t : String) : Bool :=
  t == "-" || t == "—" || t == "N/A" || t == ""

/-- The magnitude-suffix step of parse_number_with_suffix: the chain of
endswith tests on K, M, B, T, giving the multiplier and the string with
the suffix stripped. -/
def magSuffix (t : String) : ℚ × String :=
  if strEndsWith t 'K' then (1000, pyDropLast t)
  else if strEndsWith t 'M' then (1000000, pyDropLast t)
  else if strEndsWith t 'B' then (1000000000, pyDropLast t)
  else if strEndsWith t 'T' then (1000000000000, pyDropLast t)
  else (1, t)

/-- parse_number_with_suffix from the source: empty input is None; the
input is stripped and commas removed; sentinel tokens are None; a
trailing percent sign returns the prefix unscaled; otherwise a trailing
K/M/B/T suffix scales the prefix, plus signs are removed and the result
is float times the multiplier.  The except ValueError handler retries
float on the current (already mutated) string, and any failure there is
None; both retries appear below as the inner match arms. -/
def parse_number_with_suffix (s : String) : Option ℚ :=
  if s = "" then none
  else
    let t := removeAll ',' (pyStrip s)
    if isSentinelTok t then none
    else if strEndsWith t '%' then
      match pyFloat (pyDropLast t) with
      | some v => some v
      | none =>
        match pyFloat t with
        | some v => some v
        | none => none
    else
      let p := magSuffix t
      let u := removeAll '+' p.2
      match pyFloat u with
      | some v => some (qmul v p.1)
      | none =>
        match pyFloat u with
        | some v => some v
        | none => none

/-- parse_price from the source: empty is None; commas removed and
stripped; direct float, falling back to parse_number_with_suffix when
float raises ValueError. -/
def parse_price (s : String) : Option ℚ :=
  if s = "" then none
  else
    let t := pyStrip (removeAll ',' s)
    match pyFloat t with
    | some v => some v
    | none => parse_number_with_suffix t

/-- One token of wsSplitAux output per maximal run of non-whitespace. -/
def wsSplitAux : List Char → List Char → List String
  | [], cur => if cur.isEmpty then [] else [String.mk cur.reverse]
  | c :: rest, cur =>
    if c.isWhitespace then
      if cur.isEmpty then wsSplitAux rest []
      else String.mk cur.reverse :: wsSplitAux rest []
    else wsSplitAux rest (c :: cur)

/-- Model of Python s.split() with no arguments: split on runs of
whitespace, discarding empty tokens. -/
def pySplitWS (s : String) : List String := wsSplitAux s.toList []

/-- The token loop of parse_change: strip the token, remove commas,
remove one trailing percent sign, remove plus signs, and return the
first float success; the except Exception handler is the continue to
the next token. -/
def changeScan : List String → Option ℚ
  | [] => none
  | tok :: rest =>
    let t := removeAll ',' (pyStrip tok)
    let t2 := if strEndsWith t '%' then pyDropLast t else t
    match pyFloat (removeAll '+' t2) with
    | some v => some v
    | none => changeScan rest

/-- parse_change from the source: empty is None, else split on
whitespace and scan tokens left to right. -/
def parse_change (s : String) : Option ℚ :=
  if s = "" then none else changeScan (pySplitWS s)

/-- The PE cell parse inside the row loop: float of the comma-stripped
text when the raw text is truthy and not a sentinel, None otherwise;
the surrounding try/except maps any failure to None. -/
def parse_pe (raw : Option String) : Option ℚ :=
  match raw with
  | none => none
  | some t =>
    if t = "" || t == "-" || t == "—" || t == "N/A" then none
    else
      match pyFloat (removeAll ',' t) with
      | some v => some v
      | none => none

/-- parse_number_with_suffix with the exception channel explicit: every
float call may raise (Except.error), the two except handlers appear as
the error arms.  Used to state that no exception escapes the function. -/
def parse_number_with_suffixE (s : String) : Except Unit (Option ℚ) :=
  if s = "" then Except.ok none
  else
    let t := removeAll ',' (pyStrip s)
    if isSentinelTok t then Except.ok none
    else if strEndsWith t '%' then
      match pyFloatE (pyDropLast t) with
      | Except.ok v => Except.ok (some v)
      | Except.error _ =>
        match pyFloatE t with
        | Except.ok v => Except.ok (some v)
        | Except.error _ => Except.ok none
    else
      let p := magSuffix t
      let u := removeAll '+' p.2
      match pyFloatE u with
      | Except.ok v => Except.ok (some (qmul v p.1))
      | Except.error _ =>
        match pyFloatE u with
        | Except.ok v => Except.ok (some v)
        | Except.error _ => Except.ok none

/-- parse_price with the exception channel explicit: the except
ValueError handler delegates to parse_number_with_suffix, whose own
exceptions (it has none, as proved below) would propagate. -/
def parse_priceE (s : String) : Except Unit (Option ℚ) :=
  if s = "" then Except.ok none
  else
    let t := pyStrip (removeAll ',' s)
    match pyFloatE t with
    | Except.ok v => Except.ok (some v)
    | Except.error _ => parse_number_with_suffixE t

/-- The parse_change token loop with the exception channel explicit:
the except Exception arm continues the scan. -/
def changeScanE : List String → Except Unit (Option ℚ)
  | [] => Except.ok none
  | tok :: rest =>
    let t := removeAll ',' (pyStrip tok)
    let t2 := if strEndsWith t '%' then pyDropLast t else t
    match pyFloatE (removeAll '+' t2) with
    | Except.ok v => Except.ok (some v)
    | Except.error _ => changeScanE rest

/-- parse_change with the exception channel explicit. -/
def parse_changeE (s : String) : Except Unit (Option ℚ) :=
  if s = "" then Except.ok none else changeScanE (pySplitWS s)

/-- The PE cell parse with the exception channel explicit: the bare
except arm yields None. -/
def parse_peE (raw : Option String) : Except Unit (Option ℚ) :=
  match raw with
  | none => Except.ok none
  | some t =>
    if t = "" || t == "-" || t == "—" || t == "N/A" then Except.ok none
    else
      match pyFloatE (removeAll ',' t) with
      | Except.ok v => Except.ok (some v)
      | Except.error _ => Except.ok none

/-- Lowercase one ASCII letter, leaving other characters alone. -/
def charLower (c : Char) : Char :=
  if 65 ≤ c.toNat && c.toNat ≤ 90 then Char.ofNat (c.toNat + 32) else c

/-- Model of Python str.lower() on the ASCII header labels the scraper
meets. -/
def pyLower (s : String) : String := String.mk (s.toList.map charLower)

/-- One insertion into the header dictionary: an existing key keeps its
position and takes the new value, a new key is appended, matching
Python dict insertion order. -/
def assocUpdate (m : List (String × Nat)) (k : String) (v : Nat) : List (String × Nat) :=
  match m with
  | [] => [(k, v)]
  | (k2, v2) :: rest => if k2 = k then (k, v) :: rest else (k2, v2) :: assocUpdate rest k v

/-- The header_map built in _find_table_and_headers: for idx, h in
enumerate(headers), store the lower-cased label as key with its column
position as value. -/
def buildHeaderMap (headers : List String) : List (String × Nat) :=
  headers.enum.foldl (fun m p => assocUpdate m (pyLower p.2) p.1) []

/-- find_index_by_keyword from the row loop: iterate the header map in
insertion order; the first key containing any of the keywords as a
substring yields its column position; no match is None. -/
def find_index_by_keyword (header_map : List (String × Nat)) (keywords : List String) : Option Nat :=
  match header_map with
  | [] => none
  | (k, idx) :: rest =>
    if keywords.any (fun kw => containsSub kw.toList k.toList) then some idx
    else find_index_by_keyword rest keywords

/-- Model of the Python expression x or d on Optional[int]: both None
and the integer 0 are falsy and give the fallback d. -/
def pyOrNat (x : Option Nat) (d : Option Nat) : Option Nat :=
  match x with
  | none => d
  | some n => if n = 0 then d else some n

/-- symbol_idx in the row loop: keyword match with fixed fallback 0. -/
def symbol_idx (hm : List (String × Nat)) : Option Nat :=
  pyOrNat (find_index_by_keyword hm ["symbol"]) (some 0)

/-- name_idx in the row loop: keyword match with fixed fallback 1. -/
def name_idx (hm : List (String × Nat)) : Option Nat :=
  pyOrNat (find_index_by_keyword hm ["name", "title"]) (some 1)

/-- price_idx in the row loop: keyword match or None. -/
def price_idx (hm : List (String × Nat)) : Option Nat :=
  pyOrNat (find_index_by_keyword hm ["price", "last"]) none

/-- change_idx in the row loop: keyword match or None. -/
def change_idx (hm : List (String × Nat)) : Option Nat :=
  pyOrNat (find_index_by_keyword hm ["change", "% change"]) none

/-- volume_idx in the row loop: keyword match or None. -/
def volume_idx (hm : List (String × Nat)) : Option Nat :=
  pyOrNat (find_index_by_keyword hm ["volume"]) none

/-- marketcap_idx in the row loop: keyword match or None. -/
def marketcap_idx (hm : List (String × Nat)) : Option Nat :=
  pyOrNat (find_index_by_keyword hm ["market cap", "marketcap"]) none

/-- pe_idx in the row loop: keyword match or None. -/
def pe_idx (hm : List (String × Nat)) : Option Nat :=
  pyOrNat (find_index_by_keyword hm ["pe", "pe ratio"]) none

/-- A table body row as the extractor sees it: either its handle raises
StaleElementReferenceException when the cells are fetched, or it yields
the text of its td cells. -/
inductive Row where
  | stale : Row
  | cells : List String → Row
deriving Repr, DecidableEq

/-- Fetching the cells of a row, with the stale-handle exception
explicit. -/
def rowCellsE (r : Row) : Except Unit (List String) :=
  match r with
  | Row.stale => Except.error ()
  | Row.cells cs => Except.ok cs

/-- The helper g(idx) of the row loop: _clean_text of the cell text at
idx; the inner except (an index out of range) is None. -/
def cellAt (cells : List String) (idx : Nat) : Option String :=
  match cells.get? idx with
  | some t => some (pyStrip t)
  | none => none

/-- g applied to an optional column position: the source pattern
  g(idx) if idx is not None else None. -/
def cellAtOpt (cells : List String) (idx : Option Nat) : Option String :=
  match idx with
  | some i => cellAt cells i
  | none => none

/-- The source pattern  f(raw) if raw else None  guarding each numeric
parse: None and the empty string are falsy. -/
def pyIfParse (f : String → Option ℚ) (raw : Option String) : Option ℚ :=
  match raw with
  | some t => if t = "" then none else f t
  | none => none

/-- One scraped record.  Field order and names follow the dict built in
the row loop; the pe_ratio key is named pe_val here; the scraped_at
wall-clock timestamp is outside the model. -/
structure Record where
  symbol : Option String
  name : Option String
  price_raw : Option String
  change_raw : Option String
  volume_raw : Option String
  market_cap_raw : Option String
  pe_raw : Option String
  price_usd : Option ℚ
  change : Option ℚ
  volume : Option ℚ
  market_cap : Option ℚ
  pe_val : Option ℚ
deriving Repr, DecidableEq

/-- The record built for one non-stale row: resolve the column indices
from the header map, read the raw cell texts, and derive the numeric
fields with the parsers. -/
def build_record (header_map : List (String × Nat)) (cells : List String) : Record :=
  let symbol := cellAtOpt cells (symbol_idx header_map)
  let name := cellAtOpt cells (name_idx header_map)
  let price_raw := cellAtOpt cells (price_idx header_map)
  let change_raw := cellAtOpt cells (change_idx header_map)
  let volume_raw := cellAtOpt cells (volume_idx header_map)
  let market_cap_raw := cellAtOpt cells (marketcap_idx header_map)
  let pe_raw := cellAtOpt cells (pe_idx header_map)
  Record.mk symbol name price_raw change_raw volume_raw market_cap_raw pe_raw
    (pyIfParse parse_price price_raw)
    (pyIfParse parse_change change_raw)
    (pyIfParse parse_number_with_suffix volume_raw)
    (pyIfParse parse_number_with_suffix market_cap_raw)
    (parse_pe pe_raw)

/-- _extract_rows_by_header_map: one record per row in row order; the
except StaleElementReferenceException handler (the error arm of the
cell fetch) skips the row and continues with the rest. -/
def extract_rows_by_header_map (hm : List (String × Nat)) : List Row → List Record
  | [] => []
  | row :: rest =>
    match rowCellsE row with
    | Except.error _ => extract_rows_by_header_map hm rest
    | Except.ok cs => build_record hm cs :: extract_rows_by_header_map hm rest

/-- The activation methods _click_next_if_available can attempt, in the
order it attempts them. -/
inductive ClickMethod where
  | primary
  | js
deriving Repr, DecidableEq

/-- What the primary click on the Next button does: succeed, or raise
one of the two caught interaction failures (ElementClickIntercepted or
StaleElementReference). -/
inductive ClickBehavior where
  | ok
  | intercepted
deriving Repr, DecidableEq

/-- The Next button as _click_next_if_available reads it: absent from
the DOM (find_element raises NoSuchElement), or present with its
disabled attribute, class attribute, aria-disabled attribute, the
behavior of a primary click and whether the JS fallback click would
succeed. -/
inductive NextControl where
  | absent
  | present (disabled_attr : Option String) (classAttr : Option String)
      (aria_disabled : Option String) (primaryClick : ClickBehavior)
      (jsClickSucceeds : Bool)
deriving Repr, DecidableEq

/-- The disabled test on the found button: a truthy disabled attribute,
or the substring disabled in the class string (absent class reads as
the empty string), or aria-disabled equal to the string true. -/
def nextIsDisabled (d cls aria : Option String) : Bool :=
  (match d with | some t => decide (t ≠ "") | none => false)
  || containsSub "disabled".toList ((cls.getD "").toList)
  || decide (aria = some "true")

/-- How one evaluation of _click_next_if_available ends. -/
inductive NextOutcome where
  | advanced
  | absent
  | disabled
  | failed
deriving Repr, DecidableEq

/-- _click_next_if_available, instrumented with which exit it took and
the list of activation attempts it made in order: button absent or
disabled means no attempt and no advance; a successful primary click
advances; a caught interaction failure is retried exactly once with the
JS click, whose failure ends pagination. -/
def click_next_outcome (c : NextControl) : NextOutcome × List ClickMethod :=
  match c with
  | NextControl.absent => (NextOutcome.absent, [])
  | NextControl.present d cls aria pc js =>
    if nextIsDisabled d cls aria then (NextOutcome.disabled, [])
    else
      match pc with
      | ClickBehavior.ok => (NextOutcome.advanced, [ClickMethod.primary])
      | ClickBehavior.intercepted =>
        ((if js then NextOutcome.advanced else NextOutcome.failed),
         [ClickMethod.primary, ClickMethod.js])

/-- The boolean _click_next_if_available returns to the scrape loop. -/
def click_next_if_available (c : NextControl) : Bool :=
  match (click_next_outcome c).1 with
  | NextOutcome.advanced => true
  | _ => false

/-- One loaded page as the scraper reads it: the first table with its
header texts and body rows, or none when no table appears (the wait
times out and _find_table_and_headers raises RuntimeError), plus the
state of the Next button. -/
structure Page where
  table : Option (List String × List Row)
  nextControl : NextControl
deriving Repr, DecidableEq

/-- _find_table_and_headers: RuntimeError when no table is present,
else the header map over the stripped header texts together with the
body rows the table will yield. -/
def find_table_and_headers (p : Page) :
    Except String (List (String × Nat) × List Row) :=
  match p.table with
  | none => Except.error "No table found on the page"
  | some (hs, rows) => Except.ok (buildHeaderMap (hs.map pyStrip), rows)

/-- The loop condition  pages_limit and pages_scraped >= pages_limit:
a missing limit is falsy, and so is a limit of 0. -/
def pyLimitHit (limit : Option Int) (scraped : Nat) : Bool :=
  match limit with
  | none => false
  | some n => decide (n ≠ 0) && decide (n ≤ (scraped : Int))

/-- Why the scrape loop stopped, named after the break that fired:
the page limit was reached; the Next button was absent, disabled, or
both its activations failed; or no table was found (the caught
RuntimeError).  The source logs the reason rather than returning it. -/
inductive StopReason where
  | reachedLimit
  | controlAbsent
  | controlDisabled
  | controlFailed
  | noTable
deriving Repr, DecidableEq

/-- The scrape while-loop over the remaining pages of the site (the
head is the page currently loaded; a successful Next click loads the
next element; running past the end behaves as a page with no table).
scraped counts pages already harvested, acc is self.data.  Per
iteration: find the table (its RuntimeError is caught and breaks the
loop), extract and append the rows, break when the configured limit is
reached, else click Next and break when that fails.  The Except result
is the exception channel of the Python method: every break returns
normally, so every result is ok. -/
def scrapeGo (limit : Option Int) :
    List Page → Nat → List Record → Except String (List Record × StopReason)
  | [], _, acc => Except.ok (acc, StopReason.noTable)
  | p :: rest, scraped, acc =>
    match find_table_and_headers p with
    | Except.error _ => Except.ok (acc, StopReason.noTable)
    | Except.ok (hm, rows) =>
      let acc2 := acc ++ extract_rows_by_header_map hm rows
      if pyLimitHit limit (scraped + 1) then Except.ok (acc2, StopReason.reachedLimit)
      else
        match (click_next_outcome p.nextControl).1 with
        | NextOutcome.advanced => scrapeGo limit rest (scraped + 1) acc2
        | NextOutcome.absent => Except.ok (acc2, StopReason.controlAbsent)
        | NextOutcome.disabled => Except.ok (acc2, StopReason.controlDisabled)
        | NextOutcome.failed => Except.ok (acc2, StopReason.controlFailed)

/-- scrape(pages_limit): open the entry page and run the loop with
pages_scraped = 0 and empty self.data. -/
def scrape (fixture : List Page) (limit : Option Int) :
    Except String (List Record × StopReason) :=
  scrapeGo limit fixture 0 []

/-- Strip one leading plus sign from a token, the transformation the
spec sentence for normalizeDelta names. -/
def stripLeadingPlus (t : String) : String :=
  match t.toList with
  | '+' :: rest => String.mk rest
  | _ => t

/-- Strip one trailing percent sign from a token. -/
def stripTrailingPct (t : String) : String :=
  if strEndsWith t '%' then pyDropLast t else t

/-- First token of the list on which the parse succeeds. -/
def firstSome (f : String → Option ℚ) : List String → Option ℚ
  | [] => none
  | t :: rest =>
    match f t with
    | some v => some v
    | none => firstSome f rest

/-- The normalizeDelta of the spec, word for word: split on whitespace,
per token strip thousands separators and a trailing percent sign, and
return the first token that parses as a signed decimal with a leading
plus stripped and minus preserved. -/
def deltaSpecLeading (s : String) : Option ℚ :=
  firstSome
    (fun tok => pyFloat (stripLeadingPlus (stripTrailingPct (removeAll ',' tok))))
    (pySplitWS s)

/-- The amended normalizeDelta: identical except that every plus sign
of the token is removed, not only a leading one, matching the
replace of the source. -/
def deltaSpecAll (s : String) : Option ℚ :=
  firstSome
    (fun tok => pyFloat (removeAll '+' (stripTrailingPct (removeAll ',' tok))))
    (pySplitWS s)

/-- Header texts of the two-page fixture of the spec's end-to-end
tests. -/
def stockHeaders : List String :=
  ["Symbol", "Name", "Price", "Change", "Volume", "Market Cap", "PE Ratio"]

/-- An enabled Next button whose primary click succeeds. -/
def enabledNext : NextControl :=
  NextControl.present none (some "pagination-next") none ClickBehavior.ok true

/-- A Next button whose disabled attribute is present. -/
def disabledNext : NextControl :=
  NextControl.present (some "true") (some "pagination-next disabled") none
    ClickBehavior.ok true

/-- First page of the fixture: three rows. -/
def fixturePage1 : Page :=
  Page.mk
    (some (stockHeaders,
      [Row.cells ["AAA", "Alpha", "10.00", "+1.00 (+2.00%)", "1.5M", "2B", "12.34"],
       Row.cells ["BBB", "Beta", "20.50", "-0.45", "2M", "3.5B", "-"],
       Row.cells ["CCC", "Gamma", "5.25", "+0.10", "500K", "750M", "8.5"]]))
    enabledNext

/-- Second page of the fixture: two rows, then the Next button is
disabled. -/
def fixturePage2 : Page :=
  Page.mk
    (some (stockHeaders,
      [Row.cells ["DDD", "Delta", "1.75", "-0.05", "1B", "10T", "N/A"],
       Row.cells ["EEE", "Eps", "99.99", "+9.99", "3K", "1.2M", "100"]]))
    disabledNext

/-- The two-page fake table source of the spec's end-to-end tests. -/
def fixtureTwoPage : List Page := [fixturePage1, fixturePage2]

/-- The three records page 1 must yield, written out in full (mkRat a b
is the rational a over b). -/
def page1Records : List Record :=
  [Record.mk (some "AAA") (some "Alpha") (some "10.00") (some "+1.00 (+2.00%)")
     (some "1.5M") (some "2B") (some "12.34")
     (some 10) (some 1) (some 1500000) (some 2000000000) (some (mkRat 617 50)),
   Record.mk (some "BBB") (some "Beta") (some "20.50") (some "-0.45")
     (some "2M") (some "3.5B") (some "-")
     (some (mkRat 41 2)) (some (mkRat (-9) 20)) (some 2000000) (some 3500000000) none,
   Record.mk (some "CCC") (some "Gamma") (some "5.25") (some "+0.10")
     (some "500K") (some "750M") (some "8.5")
     (some (mkRat 21 4)) (some (mkRat 1 10)) (some 500000) (some 750000000)
     (some (mkRat 17 2))]

/-- The two records page 2 must yield, written out in full. -/
def page2Records : List Record :=
  [Record.mk (some "DDD") (some "Delta") (some "1.75") (some "-0.05")
     (some "1B") (some "10T") (some "N/A")
     (some (mkRat 7 4)) (some (mkRat (-1) 20)) (some 1000000000)
     (some 10000000000000) none,
   Record.mk (some "EEE") (some "Eps") (some "99.99") (some "+9.99")
     (some "3K") (some "1.2M") (some "100")
     (some (mkRat 9999 100)) (some (mkRat 999 100)) (some 3000) (some 1200000)
     (some 100)]

deriving instance DecidableEq for Except

/-- The mkRat form of multiplication agrees with the field
multiplication of the rationals. -/
theorem qmul_eq_mul (a b : ℚ) : qmul a b = a * b := by
  rw [qmul, Rat.mkRat_eq_div]
  push_cast
  rw [← div_mul_div_comm, Rat.num_div_den, Rat.num_div_den]

/-- The mkRat form of negation agrees with the field negation of the
rationals. -/
theorem qneg_eq_neg (a : ℚ) : qneg a = -a := by
  rw [qneg, Rat.mkRat_eq_div]
  push_cast
  rw [neg_div, Rat.num_div_den]

/-- A string ends with at most one character. -/
theorem strEndsWith_false_of_other {s : String} {c c2 : Char}
    (h : strEndsWith s c = true) (hne : c2 ≠ c) : strEndsWith s c2 = false := by
  unfold strEndsWith at h ⊢
  have h2 := of_decide_eq_true h
  rw [h2]
  simp only [decide_eq_false_iff_not, Option.some.injEq]
  exact fun h3 => hne h3.symm

/-- Claim C1 (corrected).  If no table is present on the first page
load, the table lookup raises the extraction error, but scrape catches
the RuntimeError, logs it, and terminates normally with an empty record
sequence; the failed layout is not surfaced to the caller of scrape,
whatever the Next control, the following pages or the page limit. -/
theorem c1_no_table_caught (c : NextControl) (rest : List Page) (limit : Option Int) :
    scrape (Page.mk none c :: rest) limit = Except.ok ([], StopReason.noTable) ∧
    find_table_and_headers (Page.mk none c) =
      Except.error "No table found on the page" := by
  constructor
  · simp [scrape, scrapeGo, find_table_and_headers]
  · rfl

/-- Claim C1, counterexample to the claim as stated: on a first page
with no table, the run does terminate normally (an ok result) with the
empty record sequence, instead of aborting with a failed run. -/
theorem c1_counterexample :
    scrape [Page.mk none NextControl.absent] none =
      Except.ok ([], StopReason.noTable) := by decide

/-- Claim C2 (code bug).  A keyword match at column position 0 does not
win over the fallback: the source computes find_index_by_keyword(...)
or default, and Python treats the index 0 as falsy.  With headers
Price, Symbol the price keyword matches at column 0, yet the resolved
price position is None and the extracted record loses its price; with
headers Name, Symbol the name keyword matches at column 0, yet the
resolved name position is the fallback 1.  Matches at nonzero columns
(the spec's own reordering example) do win. -/
theorem c2_match_at_zero_dropped :
    find_index_by_keyword (buildHeaderMap ["Price", "Symbol"]) ["price", "last"] = some 0 ∧
    price_idx (buildHeaderMap ["Price", "Symbol"]) = none ∧
    (build_record (buildHeaderMap ["Price", "Symbol"]) ["3.14", "AAA"]).price_raw = none ∧
    (build_record (buildHeaderMap ["Price", "Symbol"]) ["3.14", "AAA"]).price_usd = none ∧
    find_index_by_keyword (buildHeaderMap ["Name", "Symbol"]) ["name", "title"] = some 0 ∧
    name_idx (buildHeaderMap ["Name", "Symbol"]) = some 1 ∧
    price_idx (buildHeaderMap ["Name", "Symbol", "Price", "Change"]) = some 2 ∧
    price_idx (buildHeaderMap ["Symbol", "Name", "Change", "Price"]) = some 3 := by
  decide

/-- Claim C3.  On the two-page fixture (3 rows, then 2 rows, then the
Next control disabled), scrape with no page limit returns exactly the
five records in page-then-row order together with the stop reason
controlDisabled. -/
theorem c3_two_page_fixture :
    scrape fixtureTwoPage none =
      Except.ok (page1Records ++ page2Records, StopReason.controlDisabled) ∧
    (page1Records ++ page2Records).length = 5 ∧
    (page1Records ++ page2Records).map Record.symbol =
      [some "AAA", some "BBB", some "CCC", some "DDD", some "EEE"] := by
  refine ⟨by decide, by decide, by decide⟩

/-- Claim C4.  Once the configured nonzero page limit is reached by the
pages harvested, the loop stops with reachedLimit before consulting the
Next control at all: the result carries the accumulated and current
records, and is the same whatever the control or the remaining pages.
On the two-page fixture a limit of 1 yields exactly the page 1 records. -/
theorem c4_reached_limit :
    (∀ (hs : List String) (rows : List Row) (c c2 : NextControl) (rest rest2 : List Page)
       (scraped : Nat) (acc : List Record) (n : Int),
       n ≠ 0 → n ≤ (scraped : Int) + 1 →
       scrapeGo (some n) (Page.mk (some (hs, rows)) c :: rest) scraped acc
         = Except.ok
             (acc ++ extract_rows_by_header_map (buildHeaderMap (hs.map pyStrip)) rows,
              StopReason.reachedLimit) ∧
       scrapeGo (some n) (Page.mk (some (hs, rows)) c :: rest) scraped acc
         = scrapeGo (some n) (Page.mk (some (hs, rows)) c2 :: rest2) scraped acc) ∧
    scrape fixtureTwoPage (some 1) = Except.ok (page1Records, StopReason.reachedLimit) := by
  constructor
  · intro hs rows c c2 rest rest2 scraped acc n hn hle
    have hhit : pyLimitHit (some n) (scraped + 1) = true := by
      simp only [pyLimitHit, Bool.and_eq_true, decide_eq_true_eq]
      refine ⟨hn, ?_⟩
      push_cast
      omega
    constructor
    · simp [scrapeGo, find_table_and_headers, hhit]
    · simp [scrapeGo, find_table_and_headers, hhit]
  · decide

/-- Witness for claim C4 at a concrete input. -/
theorem c4_reached_limit_witness :
    scrapeGo (some 1) [Page.mk (some ((["H"] : List String), ([] : List Row)))
        NextControl.absent] 0 []
      = Except.ok
          (([] : List Record) ++
             extract_rows_by_header_map (buildHeaderMap (["H"].map pyStrip)) [],
           StopReason.reachedLimit) :=
  (c4_reached_limit.1 ["H"] [] NextControl.absent NextControl.absent [] [] 0 [] 1
    (by decide) (by decide)).1

/-- Claim C8.  A row whose handle is stale when its cells are fetched
contributes zero records and does not abort extraction of the rows
around it, and the empty row list is a valid extraction result. -/
theorem c8_stale_row_skipped (hm : List (String × Nat)) (rows1 rows2 : List Row) :
    extract_rows_by_header_map hm (rows1 ++ Row.stale :: rows2)
      = extract_rows_by_header_map hm rows1 ++ extract_rows_by_header_map hm rows2 ∧
    extract_rows_by_header_map hm [] = [] := by
  constructor
  · induction rows1 with
    | nil => simp [extract_rows_by_header_map, rowCellsE]
    | cons r rest ih =>
      cases r with
      | stale => simpa [extract_rows_by_header_map, rowCellsE] using ih
      | cells cs => simp [extract_rows_by_header_map, rowCellsE, ih]
  · rfl

/-- Claim C9.  When the primary activation of the Next control fails
with a caught interaction failure, exactly one fallback attempt (the
programmatic JS click) follows; when the fallback also fails the loop
ends this run with controlFailed, and every record collected so far is
in the returned sequence. -/
theorem c9_click_fallback :
    (∀ (d cls aria : Option String) (js : Bool),
       nextIsDisabled d cls aria = false →
       click_next_outcome (NextControl.present d cls aria ClickBehavior.intercepted js)
         = ((if js then NextOutcome.advanced else NextOutcome.failed),
            [ClickMethod.primary, ClickMethod.js])) ∧
    (∀ (hs : List String) (rows : List Row) (d cls aria : Option String) (rest : List Page)
       (limit : Option Int) (scraped : Nat) (acc : List Record),
       nextIsDisabled d cls aria = false →
       pyLimitHit limit (scraped + 1) = false →
       scrapeGo limit (Page.mk (some (hs, rows))
           (NextControl.present d cls aria ClickBehavior.intercepted false) :: rest)
           scraped acc
         = Except.ok
             (acc ++ extract_rows_by_header_map (buildHeaderMap (hs.map pyStrip)) rows,
              StopReason.controlFailed)) := by
  constructor
  · intro d cls aria js hdis
    simp [click_next_outcome, hdis]
  · intro hs rows d cls aria rest limit scraped acc hdis hlim
    simp [scrapeGo, find_table_and_headers, hlim, click_next_outcome, hdis]

/-- Witness for claim C9 at a concrete input. -/
theorem c9_click_fallback_witness :
    click_next_outcome (NextControl.present none none none ClickBehavior.intercepted false)
      = ((if false then NextOutcome.advanced else NextOutcome.failed),
         [ClickMethod.primary, ClickMethod.js]) ∧
    scrapeGo none [Page.mk (some ((["H"] : List String), ([] : List Row)))
        (NextControl.present none none none ClickBehavior.intercepted false)] 0 []
      = Except.ok
          (([] : List Record) ++
             extract_rows_by_header_map (buildHeaderMap (["H"].map pyStrip)) [],
           StopReason.controlFailed) :=
  ⟨c9_click_fallback.1 none none none false (by decide),
   c9_click_fallback.2 ["H"] [] none none none [] none 0 [] (by decide) (by decide)⟩

/-- A limit of 0 never fires, so the loop runs as with no limit. -/
theorem scrapeGo_some_zero (pages : List Page) : ∀ (scraped : Nat) (acc : List Record),
    scrapeGo (some 0) pages scraped acc = scrapeGo none pages scraped acc := by
  induction pages with
  | nil => intro scraped acc; rfl
  | cons p rest ih =>
    intro scraped acc
    cases hft : find_table_and_headers p with
    | error e => simp [scrapeGo, hft]
    | ok pr =>
      cases pr with
      | mk hm rows =>
        have h0 : pyLimitHit (some 0) (scraped + 1) = false := rfl
        have h1 : pyLimitHit none (scraped + 1) = false := rfl
        cases hout : (click_next_outcome p.nextControl).1 <;>
          simp [scrapeGo, hft, h0, h1, hout, ih]

/-- With no limit configured the loop can never stop with
reachedLimit. -/
theorem scrapeGo_none_not_limit (pages : List Page) :
    ∀ (scraped : Nat) (acc recs : List Record),
    scrapeGo none pages scraped acc ≠ Except.ok (recs, StopReason.reachedLimit) := by
  induction pages with
  | nil => intro scraped acc recs; simp [scrapeGo]
  | cons p rest ih =>
    intro scraped acc recs
    cases hft : find_table_and_headers p with
    | error e => simp [scrapeGo, hft]
    | ok pr =>
      cases pr with
      | mk hm rows =>
        have h1 : pyLimitHit none (scraped + 1) = false := rfl
        cases hout : (click_next_outcome p.nextControl).1 <;>
          simp [scrapeGo, hft, h1, hout, ih]

/-- Claim C10.  A configured page limit of 0 behaves exactly as no
limit at all: the run is identical to the unlimited one and can never
stop with reachedLimit. -/
theorem c10_zero_limit :
    (∀ fixture : List Page, scrape fixture (some 0) = scrape fixture none) ∧
    (∀ (fixture : List Page) (recs : List Record),
       scrape fixture (some 0) ≠ Except.ok (recs, StopReason.reachedLimit)) := by
  constructor
  · intro fixture
    exact scrapeGo_some_zero fixture 0 []
  · intro fixture recs
    rw [scrape, scrapeGo_some_zero]
    exact scrapeGo_none_not_limit fixture 0 [] recs

/-- Claim C5.  normalizeMagnitude sends every sentinel token (hyphen,
em-dash, N/A, empty) to unavailable; the given magnitude examples hold;
and in general, whenever the cleaned input ends in K, M, B or T and its
prefix parses, the result is the prefix times 1e3, 1e6, 1e9 or 1e12,
while a trailing percent sign returns the parsed prefix unscaled. -/
theorem c5_normalize_magnitude :
    (parse_number_with_suffix "-" = none ∧ parse_number_with_suffix "—" = none ∧
     parse_number_with_suffix "N/A" = none ∧ parse_number_with_suffix "" = none) ∧
    (parse_number_with_suffix "1.5M" = some 1500000 ∧
     parse_number_with_suffix "2B" = some 2000000000) ∧
    (∀ (s : String) (v : ℚ), s ≠ "" →
       isSentinelTok (removeAll ',' (pyStrip s)) = false →
       strEndsWith (removeAll ',' (pyStrip s)) 'K' = true →
       pyFloat (removeAll '+' (pyDropLast (removeAll ',' (pyStrip s)))) = some v →
       parse_number_with_suffix s = some (v * 1000)) ∧
    (∀ (s : String) (v : ℚ), s ≠ "" →
       isSentinelTok (removeAll ',' (pyStrip s)) = false →
       strEndsWith (removeAll ',' (pyStrip s)) 'M' = true →
       pyFloat (removeAll '+' (pyDropLast (removeAll ',' (pyStrip s)))) = some v →
       parse_number_with_suffix s = some (v * 1000000)) ∧
    (∀ (s : String) (v : ℚ), s ≠ "" →
       isSentinelTok (removeAll ',' (pyStrip s)) = false →
       strEndsWith (removeAll ',' (pyStrip s)) 'B' = true →
       pyFloat (removeAll '+' (pyDropLast (removeAll ',' (pyStrip s)))) = some v →
       parse_number_with_suffix s = some (v * 1000000000)) ∧
    (∀ (s : String) (v : ℚ), s ≠ "" →
       isSentinelTok (removeAll ',' (pyStrip s)) = false →
       strEndsWith (removeAll ',' (pyStrip s)) 'T' = true →
       pyFloat (removeAll '+' (pyDropLast (removeAll ',' (pyStrip s)))) = some v →
       parse_number_with_suffix s = some (v * 1000000000000)) ∧
    (∀ (s : String) (v : ℚ), s ≠ "" →
       isSentinelTok (removeAll ',' (pyStrip s)) = false →
       strEndsWith (removeAll ',' (pyStrip s)) '%' = true →
       pyFloat (pyDropLast (removeAll ',' (pyStrip s))) = some v →
       parse_number_with_suffix s = some v) := by
  refine ⟨⟨by decide, by decide, by decide, by decide⟩, ⟨by decide, by decide⟩,
    ?_, ?_, ?_, ?_, ?_⟩
  · intro s v h1 h2 h3 h4
    have hp : strEndsWith (removeAll ',' (pyStrip s)) '%' = false :=
      strEndsWith_false_of_other h3 (by decide)
    rw [← qmul_eq_mul]
    simp [parse_number_with_suffix, magSuffix, h1, h2, h3, hp, h4]
  · intro s v h1 h2 h3 h4
    have hp : strEndsWith (removeAll ',' (pyStrip s)) '%' = false :=
      strEndsWith_false_of_other h3 (by decide)
    have hk : strEndsWith (removeAll ',' (pyStrip s)) 'K' = false :=
      strEndsWith_false_of_other h3 (by decide)
    rw [← qmul_eq_mul]
    simp [parse_number_with_suffix, magSuffix, h1, h2, h3, hp, hk, h4]
  · intro s v h1 h2 h3 h4
    have hp : strEndsWith (removeAll ',' (pyStrip s)) '%' = false :=
      strEndsWith_false_of_other h3 (by decide)
    have hk : strEndsWith (removeAll ',' (pyStrip s)) 'K' = false :=
      strEndsWith_false_of_other h3 (by decide)
    have hm : strEndsWith (removeAll ',' (pyStrip s)) 'M' = false :=
      strEndsWith_false_of_other h3 (by decide)
    rw [← qmul_eq_mul]
    simp [parse_number_with_suffix, magSuffix, h1, h2, h3, hp, hk, hm, h4]
  · intro s v h1 h2 h3 h4
    have hp : strEndsWith (removeAll ',' (pyStrip s)) '%' = false :=
      strEndsWith_false_of_other h3 (by decide)
    have hk : strEndsWith (removeAll ',' (pyStrip s)) 'K' = false :=
      strEndsWith_false_of_other h3 (by decide)
    have hm : strEndsWith (removeAll ',' (pyStrip s)) 'M' = false :=
      strEndsWith_false_of_other h3 (by decide)
    have hb : strEndsWith (removeAll ',' (pyStrip s)) 'B' = false :=
      strEndsWith_false_of_other h3 (by decide)
    rw [← qmul_eq_mul]
    simp [parse_number_with_suffix, magSuffix, h1, h2, h3, hp, hk, hm, hb, h4]
  · intro s v h1 h2 h3 h4
    simp [parse_number_with_suffix, h1, h2, h3, h4]

/-- Witness for claim C5 at a concrete input. -/
theorem c5_normalize_magnitude_witness :
    parse_number_with_suffix "3K" = some (3 * 1000) :=
  c5_normalize_magnitude.2.2.1 "3K" 3 (by decide) (by decide) (by decide) (by decide)

/-- The exception-explicit magnitude parser never lets an exception
escape and agrees with the caught-result parser. -/
theorem parse_number_with_suffixE_eq (s : String) :
    parse_number_with_suffixE s = Except.ok (parse_number_with_suffix s) := by
  by_cases h1 : s = ""
  · simp [parse_number_with_suffixE, parse_number_with_suffix, h1]
  · by_cases h2 : isSentinelTok (removeAll ',' (pyStrip s))
    · simp [parse_number_with_suffixE, parse_number_with_suffix, h1, h2]
    · by_cases h3 : strEndsWith (removeAll ',' (pyStrip s)) '%'
      · cases hf : pyFloat (pyDropLast (removeAll ',' (pyStrip s))) with
        | some v =>
          simp [parse_number_with_suffixE, parse_number_with_suffix, pyFloatE,
            h1, h2, h3, hf]
        | none =>
          cases hg : pyFloat (removeAll ',' (pyStrip s)) with
          | some w =>
            simp [parse_number_with_suffixE, parse_number_with_suffix, pyFloatE,
              h1, h2, h3, hf, hg]
          | none =>
            simp [parse_number_with_suffixE, parse_number_with_suffix, pyFloatE,
              h1, h2, h3, hf, hg]
      · cases hf : pyFloat (removeAll '+' (magSuffix (removeAll ',' (pyStrip s))).2) with
        | some v =>
          simp [parse_number_with_suffixE, parse_number_with_suffix, pyFloatE,
            h1, h2, h3, hf]
        | none =>
          simp [parse_number_with_suffixE, parse_number_with_suffix, pyFloatE,
            h1, h2, h3, hf]

/-- The exception-explicit price parser never lets an exception escape
and agrees with the caught-result parser. -/
theorem parse_priceE_eq (s : String) :
    parse_priceE s = Except.ok (parse_price s) := by
  by_cases h1 : s = ""
  · simp [parse_priceE, parse_price, h1]
  · cases hf : pyFloat (pyStrip (removeAll ',' s)) with
    | some v => simp [parse_priceE, parse_price, pyFloatE, h1, hf]
    | none =>
      simp [parse_priceE, parse_price, pyFloatE, h1, hf,
        parse_number_with_suffixE_eq]

/-- The exception-explicit token scan of parse_change never lets an
exception escape and agrees with the caught-result scan. -/
theorem changeScanE_eq (toks : List String) :
    changeScanE toks = Except.ok (changeScan toks) := by
  induction toks with
  | nil => rfl
  | cons tok rest ih =>
    by_cases h3 : strEndsWith (removeAll ',' (pyStrip tok)) '%'
    · cases hf : pyFloat (removeAll '+' (pyDropLast (removeAll ',' (pyStrip tok)))) with
      | some v => simp [changeScanE, changeScan, pyFloatE, h3, hf]
      | none => simp [changeScanE, changeScan, pyFloatE, h3, hf, ih]
    · cases hf : pyFloat (removeAll '+' (removeAll ',' (pyStrip tok))) with
      | some v => simp [changeScanE, changeScan, pyFloatE, h3, hf]
      | none => simp [changeScanE, changeScan, pyFloatE, h3, hf, ih]

/-- The exception-explicit delta parser never lets an exception escape
and agrees with the caught-result parser. -/
theorem parse_changeE_eq (s : String) :
    parse_changeE s = Except.ok (parse_change s) := by
  by_cases h1 : s = ""
  · simp [parse_changeE, parse_change, h1]
  · simp [parse_changeE, parse_change, h1, changeScanE_eq]

/-- The exception-explicit ratio parse never lets an exception escape
and agrees with the caught-result parse. -/
theorem parse_peE_eq (raw : Option String) :
    parse_peE raw = Except.ok (parse_pe raw) := by
  cases raw with
  | none => rfl
  | some t =>
    by_cases h1 : t = "" || t == "-" || t == "—" || t == "N/A"
    · simp [parse_peE, parse_pe, h1]
    · cases hf : pyFloat (removeAll ',' t) with
      | some v => simp [parse_peE, parse_pe, pyFloatE, h1, hf]
      | none => simp [parse_peE, parse_pe, pyFloatE, h1, hf]

/-- Claim C6.  Every normalizer (magnitude, price, delta, ratio) is
total on strings and never raises: with the exception channel made
explicit each one returns ok on every input, the caught value being a
number or the unavailable marker. -/
theorem c6_normalizers_total (s : String) :
    parse_number_with_suffixE s = Except.ok (parse_number_with_suffix s) ∧
    parse_priceE s = Except.ok (parse_price s) ∧
    parse_changeE s = Except.ok (parse_change s) ∧
    parse_peE (some s) = Except.ok (parse_pe (some s)) ∧
    parse_peE none = Except.ok (parse_pe none) :=
  ⟨parse_number_with_suffixE_eq s, parse_priceE_eq s, parse_changeE_eq s,
   parse_peE_eq (some s), parse_peE_eq none⟩

/-- Every token produced by the whitespace split contains no whitespace
character, as long as the accumulator holds none. -/
theorem noWS_mem_wsSplitAux :
    ∀ (cs cur : List Char), (∀ c ∈ cur, c.isWhitespace = false) →
    ∀ t ∈ wsSplitAux cs cur, ∀ c ∈ t.toList, c.isWhitespace = false := by
  intro cs
  induction cs with
  | nil =>
    intro cur hcur t ht c hc
    unfold wsSplitAux at ht
    by_cases hemp : cur.isEmpty
    · simp [hemp] at ht
    · simp [hemp] at ht
      subst ht
      exact hcur c (List.mem_reverse.mp hc)
  | cons a rest ih =>
    intro cur hcur t ht c hc
    unfold wsSplitAux at ht
    by_cases hws : a.isWhitespace
    · rw [if_pos hws] at ht
      by_cases hemp : cur.isEmpty
      · rw [if_pos hemp] at ht
        exact ih [] (by intro x hx; cases hx) t ht c hc
      · rw [if_neg hemp] at ht
        cases ht with
        | head => exact hcur c (List.mem_reverse.mp hc)
        | tail _ ht2 => exact ih [] (by intro x hx; cases hx) t ht2 c hc
    · rw [if_neg hws] at ht
      refine ih (a :: cur) ?_ t ht c hc
      intro x hx
      cases hx with
      | head => exact Bool.not_eq_true _ ▸ by simpa using hws
      | tail _ hx2 => exact hcur x hx2

/-- Dropping leading whitespace from a whitespace-free list changes
nothing. -/
theorem dropWhileWS_eq_self {cs : List Char}
    (h : ∀ c ∈ cs, c.isWhitespace = false) :
    cs.dropWhile Char.isWhitespace = cs := by
  cases cs with
  | nil => rfl
  | cons c rest =>
    rw [List.dropWhile_cons]
    simp [h c (by simp)]

/-- Trimming a whitespace-free list changes nothing. -/
theorem trimList_eq_self {cs : List Char}
    (h : ∀ c ∈ cs, c.isWhitespace = false) : trimList cs = cs := by
  unfold trimList
  rw [dropWhileWS_eq_self h]
  rw [dropWhileWS_eq_self (by intro c hc; exact h c (List.mem_reverse.mp hc))]
  exact List.reverse_reverse cs

/-- Stripping a whitespace-free string changes nothing. -/
theorem pyStrip_eq_self {t : String}
    (h : ∀ c ∈ t.toList, c.isWhitespace = false) : pyStrip t = t := by
  unfold pyStrip
  rw [trimList_eq_self h]
  rfl

/-- On whitespace-free tokens, the parse_change scan is the first-token
scan of the spec with every plus sign removed per token. -/
theorem changeScan_eq_firstSome (toks : List String)
    (h : ∀ t ∈ toks, ∀ c ∈ t.toList, c.isWhitespace = false) :
    changeScan toks =
      firstSome
        (fun tok => pyFloat (removeAll '+' (stripTrailingPct (removeAll ',' tok))))
        toks := by
  induction toks with
  | nil => rfl
  | cons tok rest ih =>
    have htok : pyStrip tok = tok := pyStrip_eq_self (h tok (by simp))
    have hrest := fun t ht => h t (List.mem_cons_of_mem tok ht)
    simp only [changeScan, firstSome, stripTrailingPct, htok]
    cases hf : pyFloat (removeAll '+'
        (if strEndsWith (removeAll ',' tok) '%' = true then pyDropLast (removeAll ',' tok)
         else removeAll ',' tok)) with
    | some v => rfl
    | none => exact ih hrest

/-- Claim C7 (corrected).  normalizeDelta splits its input on
whitespace and scans tokens left to right, stripping thousands
separators, a trailing percent sign and every plus sign from each
token, returning the value of the first token that then parses as a
signed decimal (minus preserved) and unavailable when none does; the
two spec examples hold. -/
theorem c7_first_parsable_token :
    (∀ s : String, parse_change s = deltaSpecAll s) ∧
    parse_change "+1.23 (+0.25%)" = some (mkRat 123 100) ∧
    parse_change "-0.45" = some (mkRat (-45) 100) := by
  refine ⟨?_, by decide, by decide⟩
  intro s
  by_cases h1 : s = ""
  · subst h1; rfl
  · rw [parse_change, if_neg h1, deltaSpecAll]
    exact changeScan_eq_firstSome (pySplitWS s)
      (noWS_mem_wsSplitAux s.toList [] (by intro x hx; cases hx))

/-- Claim C7, counterexample to the claim as stated: on the single
token 1+, which does not parse as a signed decimal after stripping only
a leading plus, the source still returns 1, because it removes every
plus sign of the token, not only a leading one. -/
theorem c7_counterexample :
    parse_change "1+" = some 1 ∧ deltaSpecLeading "1+" = none := by
  exact ⟨by decide, by decide⟩
